import Mathlib

/-
Verification of the Detection & Enforcement Subsystem of a host-based
intrusion-detection repository (backend/firewall_manager.py,
backend/security_monitor.py, backend/data_manager.py).

The Python code is shallowly embedded:
  * the firewall reconciliation engine (FirewallManager) becomes explicit
    state passing over `FwState`; the external packet filter (iptables inside
    a container) is modelled by its INPUT-chain rule list together with a
    trace of every issued mutation command and an oracle of command outcomes
    (`[]` meaning every command succeeds, mirroring a healthy backend);
  * the per-packet classifier cascade and the deduplication / escalation
    policy of SecurityMonitor become pure functions over `FlowStats`,
    `Candidate` and `MonState`; timestamps (Python floats) are rationals;
  * the persisted store (DataManager) is modelled by in-memory lists with
    always-succeeding writes (persistence I/O failures are outside the
    properties below); textual timestamps and the human-readable `details`
    strings of threats are omitted as no property depends on them.
-/

namespace IDS

/-! ### Character-list helpers (Python `in` substring test, `startswith`) -/

/-- Boolean sequence-prefix test on character lists (Python `startswith`). -/
def seqPrefixB : List Char → List Char → Bool
  | [], _ => true
  | _ :: _, [] => false
  | a :: as, b :: bs => a == b && seqPrefixB as bs

/-- Boolean substring containment on character lists (Python `needle in hay`). -/
def subSeq (needle : List Char) : List Char → Bool
  | [] => needle.isEmpty
  | c :: rest => seqPrefixB needle (c :: rest) || subSeq needle rest

/-- Python `str.lower()`. -/
def strLower (s : String) : String := ⟨s.data.map Char.toLower⟩

/-! ### Data model (data_manager.py records used by the claims) -/

/-- A persisted Threat record (`data["threats"]` entry); the textual
timestamp and `details` fields are omitted (no claim depends on them). -/
structure Threat where
  id : String
  source : String
  destination : String
  ttype : String
  severity : String
  status : String
deriving DecidableEq

/-- A persisted firewall rule (`data["firewall_rules"]` entry); the textual
timestamp field is omitted. -/
structure FwRule where
  id : String
  source_ip : String
  action : String
deriving DecidableEq

/-! ### External filter model -/

/-- An iptables mutation issued through `_execute_iptables_command`:
`-A INPUT -s src -j tgt`, `-D INPUT -s src -j tgt`, or `-F INPUT`. -/
inductive IptCmd where
  | append (src tgt : String)
  | delete (src tgt : String)
  | flush
deriving DecidableEq

/-- State threaded through the reconciliation engine: the external filter's
INPUT chain (source, target) rules in order, the persisted store contents,
the trace of issued iptables mutation commands, and an outcome oracle for
those commands (`headD true`: an empty oracle means every command succeeds). -/
structure FwState where
  iptables : List (String × String)
  threats : List Threat
  firewall_rules : List FwRule
  trace : List IptCmd
  oracle : List Bool
deriving DecidableEq

/-- Effect of a successful iptables command on the INPUT chain. -/
def removeFirstPair (p : String × String) : List (String × String) → List (String × String)
  | [] => []
  | q :: rest => if q = p then rest else q :: removeFirstPair p rest

def applyCmd : IptCmd → List (String × String) → List (String × String)
  | .append s t, lines => lines ++ [(s, t)]
  | .delete s t, lines => removeFirstPair (s, t) lines
  | .flush, _ => []

/-- Embeds `FirewallManager._execute_iptables_command` (lines 34-43): runs the
command once; returns `True` on success, `False` on failure. There is no
retry loop and no back-off in the source. -/
def execute_iptables_command (cmd : IptCmd) (st : FwState) : Bool × FwState :=
  let ok := st.oracle.headD true
  let st1 : FwState :=
    { st with oracle := st.oracle.tail, trace := st.trace ++ [cmd] }
  if ok then (true, { st1 with iptables := applyCmd cmd st1.iptables }) else (false, st1)

/-- Rendering of one `iptables -L INPUT -n --line-numbers` body line for a
chain entry, as scanned by `_rule_exists`. -/
def renderLine (l : String × String) : List Char :=
  l.2.data ++ "       all  --  ".data ++ l.1.data ++ "            0.0.0.0/0".data

def targetOf (action : String) : String :=
  if action = "allow" ∨ action = "accept" then "ACCEPT" else "DROP"

/-- The per-line test of `_rule_exists` (line 56): substring containment of
the source address and of the target keyword, skipping header lines. -/
def lineMatches (source_ip target : String) (l : String × String) : Bool :=
  subSeq source_ip.data (renderLine l) && subSeq target.data (renderLine l) &&
    !seqPrefixB "Chain".data (renderLine l) && !seqPrefixB "num".data (renderLine l)

/-- Embeds `FirewallManager._rule_exists` (lines 45-61). The listing subprocess is
modelled as always succeeding (its failure branch merely returns `False`). -/
def rule_exists (lines : List (String × String)) (source_ip action : String) : Bool :=
  lines.any (lineMatches source_ip (targetOf action))

/-- Embeds `FirewallManager._remove_conflicting_rule` (lines 63-67). -/
def remove_conflicting_rule (source_ip conflicting_action : String) (st : FwState) :
    Bool × FwState :=
  execute_iptables_command (.delete source_ip (targetOf conflicting_action)) st

/-! ### data_manager.py operations used by the engine -/

/-- Embeds `DataManager.remove_firewall_rule` (lines 137-149): removes the first
rule whose id or source_ip matches; `False` when none does. -/
def remove_firewall_rule (x : String) : List FwRule → Bool × List FwRule
  | [] => (false, [])
  | r :: rest =>
    if r.id = x ∨ r.source_ip = x then (true, rest)
    else
      let p := remove_firewall_rule x rest
      (p.1, r :: p.2)

/-- Embeds `DataManager.update_threat` restricted to a status update: rewrites the
first threat carrying the given id. -/
def update_threat_field (tid status : String) : List Threat → List Threat
  | [] => []
  | t :: rest =>
    if t.id = tid then { t with status := status } :: rest
    else t :: update_threat_field tid status rest

/-- Embeds `FirewallManager._update_threat_status` (lines 163-169): iterates over a
snapshot of the threat list, updating each threat from the given ip whose
status differs. -/
def update_threat_status (ip status : String) (st : FwState) : FwState :=
  { st with
    threats := st.threats.foldl
      (fun acc t =>
        if t.source = ip ∧ t.status ≠ status then update_threat_field t.id status acc
        else acc)
      st.threats }

/-! ### FirewallManager.add_rule / remove_rule / apply_rules -/

/-- Input dictionary of `add_rule`; `source_ip` / `action` may be absent
(validation, lines 76-78), `id` is filled with a fresh identifier when
absent (line 83, the random suffix is passed in as `freshId`). -/
structure RuleInput where
  source_ip : Option String
  action : Option String
  id : Option String

/-- Shared body of `add_rule` after the action has been normalized
(lines 98-124): conflict removal, already-applied check, insertion,
persistence, threat-status transition for block rules. -/
def addRuleCore (src tgt normalized conflicting rid : String) (st : FwState) :
    Bool × FwState :=
  let step1 : Bool × FwState :=
    if rule_exists st.iptables src conflicting then
      let p := remove_conflicting_rule src conflicting st
      if p.1 then
        (true, { p.2 with firewall_rules := (remove_firewall_rule src p.2.firewall_rules).2 })
      else (false, p.2)
    else (true, st)
  if step1.1 then
    let stA := step1.2
    if rule_exists stA.iptables src normalized then (true, stA)
    else
      let p2 := execute_iptables_command (.append src tgt) stA
      if p2.1 then
        let stB := { p2.2 with firewall_rules := p2.2.firewall_rules ++ [⟨rid, src, normalized⟩] }
        let stC := if normalized = "block" then update_threat_status src "blocked" stB else stB
        (true, stC)
      else (false, p2.2)
  else (false, step1.2)

/-- Embeds `FirewallManager.add_rule` (lines 74-124). The persisted write
(`add_firewall_rule`) is modelled as always succeeding. -/
def add_rule (rule : RuleInput) (freshId : String) (st : FwState) : Bool × FwState :=
  match rule.source_ip, rule.action with
  | some src, some act =>
    let a := strLower act
    if a = "block" ∨ a = "drop" then
      addRuleCore src "DROP" "block" "allow" (rule.id.getD freshId) st
    else if a = "allow" ∨ a = "accept" then
      addRuleCore src "ACCEPT" "allow" "block" (rule.id.getD freshId) st
    else (false, st)
  | _, _ => (false, st)

/-- Embeds `FirewallManager.remove_rule` (lines 126-161). -/
def remove_rule (x : String) (st : FwState) : Bool × FwState :=
  match st.firewall_rules.find? (fun r => r.id == x || r.source_ip == x) with
  | none =>
    if rule_exists st.iptables x "block" then
      let p := execute_iptables_command (.delete x "DROP") st
      if p.1 then (true, p.2) else (false, p.2)
    else (false, st)
  | some r =>
    let src := r.source_ip
    let a := strLower r.action
    let tgt := if a = "block" ∨ a = "drop" then "DROP" else "ACCEPT"
    let p := execute_iptables_command (.delete src tgt) st
    if p.1 then
      let q := remove_firewall_rule src p.2.firewall_rules
      if q.1 then
        (true, update_threat_status src "detected" { p.2 with firewall_rules := q.2 })
      else (false, { p.2 with firewall_rules := q.2 })
    else (false, p.2)

/-- One iteration of the reinsertion loop of `apply_rules` (lines 175-183);
rules whose action is not a recognized verdict are skipped. -/
def applyRuleStep (s : FwState) (r : FwRule) : FwState :=
  let a := strLower r.action
  if a = "block" ∨ a = "drop" then
    (execute_iptables_command (.append r.source_ip "DROP") s).2
  else if a = "allow" ∨ a = "accept" then
    (execute_iptables_command (.append r.source_ip "ACCEPT") s).2
  else s

/-- Embeds `FirewallManager.apply_rules` (lines 171-185): flush the INPUT chain,
reinsert every persisted rule in order, always report success. -/
def apply_rules (st : FwState) : Bool × FwState :=
  let st1 := (execute_iptables_command .flush st).2
  (true, st1.firewall_rules.foldl applyRuleStep st1)

/-! ### SecurityMonitor: flow state and the classifier cascade -/

/-- Per-source flow state (`packet_counts[src_ip]`, lines 151-159).
Timestamps (Python floats) are rationals; the port and SYN histograms
(Python defaultdicts) are association lists; the `deque(maxlen=500)` bound
and `packet_count` are irrelevant to the claims and kept implicit/absent. -/
structure FlowStats where
  times : List ℚ
  ports : List (ℕ × ℕ)
  syn_counts : List (ℕ × ℕ)
  icmp_times : List ℚ
  last_reset : ℚ
deriving DecidableEq

/-- The parsed-packet fields consulted by `_analyze_packet`: protocol layers,
the TCP/UDP destination port, the SYN flag, the ICMP type. -/
structure Packet where
  src : String
  dst : String
  isTCP : Bool
  isUDP : Bool
  isICMP : Bool
  tcpDport : ℕ
  udpDport : ℕ
  synFlag : Bool
  icmpType : ℕ
deriving DecidableEq

/-- defaultdict(int) lookup. -/
def dcount (k : ℕ) (m : List (ℕ × ℕ)) : ℕ :=
  ((m.find? (fun kv => kv.1 == k)).map Prod.snd).getD 0

/-- Embeds `stats["times"][-1] - stats["times"][0]` (line 187; guarded in the
source by length checks, so the defaults are never consulted there). -/
def ddos_time_span (times : List ℚ) : ℚ := times.getLastD 0 - times.headD 0

/-- The divisor of the volumetric-flood rate (line 188):
`time_span if time_span > 0 else 1`. -/
def ddos_divisor (times : List ℚ) : ℚ :=
  if ddos_time_span times > 0 then ddos_time_span times else 1

/-- Embeds `packet_rate = len(stats["times"]) / (time_span if time_span > 0 else 1)`
(line 188). -/
def ddos_packet_rate (times : List ℚ) : ℚ := (times.length : ℚ) / ddos_divisor times

/-- The divisor of the feature-extraction packet rate (line 89):
`current_time - stats["last_reset"] if stats["times"] else 0.001`. -/
def extract_divisor (times : List ℚ) (last_reset now : ℚ) : ℚ :=
  if times.isEmpty then 1 / 1000 else now - last_reset

/-- Embeds `packet_rate = min(len(stats["times"]) / time_span, 1000)` (line 90).
(In ℚ a zero divisor yields 0; in the source it raises and the surrounding
handler substitutes an all-zero feature vector — either way the divisor is
0, not 1, which is what the divisor-level theorems below are about.) -/
def extract_packet_rate (times : List ℚ) (last_reset now : ℚ) : ℚ :=
  min ((times.length : ℚ) / extract_divisor times last_reset now) 1000

/-- A candidate detection as accumulated by the rule-based cascade of
`_analyze_packet` (lines 180-222): the threat-suppression key, the category,
and the severity (the `details` string is omitted). -/
structure Candidate where
  threat_key : Option String
  threat_type : Option String
  severity : String
deriving DecidableEq

/-- The rule-based classifier cascade of `_analyze_packet` (lines 179-222),
translated block by block. Each block overwrites `threat_key` whenever its
protocol guard matches (and, for the volumetric block, whenever more than
5 timestamps are retained), and overwrites `threat_type` only when its
thresholds fire; there is no short-circuit between blocks. -/
def classify (pkt : Packet) (stats : FlowStats) : Candidate :=
  let tk0 : Option String := none
  let tt0 : Option String := none
  let sev0 : String := "medium"
  -- DDoS (lines 186-193)
  let r1 : Option String × Option String × String :=
    if stats.times.length > 5 then
      let tk := some (pkt.src ++ ":DDoS")
      if ddos_packet_rate stats.times > 10 ∧ ddos_time_span stats.times > 5 then
        (tk, some "DDoS", "high")
      else (tk, tt0, sev0)
    else (tk0, tt0, sev0)
  -- Port Scan (lines 196-202)
  let r2 : Option String × Option String :=
    if pkt.isTCP || pkt.isUDP then
      let tk := some (pkt.src ++ ":PortScan")
      if stats.ports.length > 3 ∧ stats.times.length > 1 ∧ ddos_time_span stats.times < 3 then
        (tk, some "Port Scan")
      else (tk, r1.2.1)
    else (r1.1, r1.2.1)
  -- Brute Force (lines 205-212)
  let r3 : Option String × Option String :=
    if pkt.isTCP && pkt.synFlag then
      let tk := some (pkt.src ++ ":BruteForce:" ++ toString pkt.tcpDport)
      if dcount pkt.tcpDport stats.syn_counts > 5 ∧ stats.times.length > 1 ∧
          ddos_time_span stats.times < 5 then
        (tk, some "Brute Force")
      else (tk, r2.2)
    else r2
  -- ICMP Flood (lines 215-222)
  let r4 : Option String × Option String :=
    if pkt.isICMP && pkt.icmpType == 8 then
      let tk := some (pkt.src ++ ":ICMPFlood")
      let icmp_len := stats.icmp_times.length
      let span := if icmp_len > 1 then stats.icmp_times.getLastD 0 - stats.icmp_times.headD 0 else 0
      if icmp_len > 10 ∧ span < 3 then (tk, some "ICMP Flood")
      else (tk, r3.2)
    else r3
  ⟨r4.1, r4.2, r1.2.2⟩

/-! ### SecurityMonitor: deduplication, escalation and reporting -/

/-- Association-list read of a Python dict keyed by threat key. -/
def dget (m : List (String × ℚ)) (k : String) : Option ℚ :=
  ((m.find? (fun kv => kv.1 == k)).map Prod.snd)

/-- Association-list write of a Python dict keyed by threat key
(replace when present, append otherwise). -/
def dput : List (String × ℚ) → String → ℚ → List (String × ℚ)
  | [], k, v => [(k, v)]
  | (k1, v1) :: rest, k, v =>
    if k1 = k then (k, v) :: rest else (k1, v1) :: dput rest k v

/-- The monitor state consulted by the deduplication / escalation policy:
`reported_threats`, `detection_attempts` (key → timestamp) and the persisted
threat list (the `stats` counters that `_report_threat` also refreshes are
omitted). -/
structure MonState where
  reported_threats : List (String × ℚ)
  detection_attempts : List (String × ℚ)
  threats : List Threat
deriving DecidableEq

/-- Embeds `SecurityMonitor._create_threat` (lines 265-281); the uuid-derived id is
passed in, the timestamp and `details` fields are omitted. -/
def create_threat (freshId src dst ttype severity : String) : Threat :=
  ⟨freshId, src, dst, ttype, severity, "detected"⟩

/-- Embeds `SecurityMonitor._report_threat` (lines 283-309): mark the key reported
at the current time and append the threat to the persisted list (the
broadcast and the stats refresh are outside the modelled state). -/
def report_threat (t : Threat) (key : String) (now : ℚ) (st : MonState) : MonState :=
  { st with
    reported_threats := dput st.reported_threats key now,
    threats := st.threats ++ [t] }

/-- Result of processing one candidate: the new state, the threat created
(if any), and whether the remote classifier was consulted. -/
structure StepOut where
  st : MonState
  created : Option Threat
  mlCalled : Bool
deriving DecidableEq

/-- The candidate-evaluation tail of `_analyze_packet` (lines 224-257):
suppression of reported keys, the 30-second re-evaluation cool-down,
escalation to the remote classifier when a session is configured
(`mlResult = none` models an unreachable / non-200 endpoint), and
confirmation / rejection. The remote verdict is accepted when
`prediction == 1 and probability >= 0.01`, with severity `"high"` from
probability `>= 0.5`. -/
def process_candidate (cand : Candidate) (src dst : String) (now : ℚ)
    (mlSession : Bool) (mlResult : Option (ℕ × ℚ)) (freshId : String)
    (st : MonState) : StepOut :=
  match cand.threat_type, cand.threat_key with
  | some ttype, some key =>
    if (dget st.reported_threats key).isSome then ⟨st, none, false⟩
    else
      let recent : Bool :=
        match dget st.detection_attempts key with
        | some t0 => now - t0 < 30
        | none => false
      if recent then ⟨st, none, false⟩
      else if mlSession then
        match mlResult with
        | some pr =>
          if pr.1 = 1 ∧ pr.2 ≥ 1 / 100 then
            let sev := if pr.2 ≥ 1 / 2 then "high" else "medium"
            let t := create_threat freshId src dst ttype sev
            ⟨report_threat t key now st, some t, true⟩
          else
            ⟨{ st with detection_attempts := dput st.detection_attempts key now }, none, true⟩
        | none =>
          ⟨{ st with detection_attempts := dput st.detection_attempts key now }, none, true⟩
      else
        let t := create_threat freshId src dst ttype cand.severity
        ⟨report_threat t key now st, some t, false⟩
  | _, _ => ⟨st, none, false⟩

/-- Embeds `SecurityMonitor._cleanup_threats` (lines 311-327) restricted to the two
suppression dictionaries (the flow-state arena it also prunes is not part of
`MonState`): entries older than 300 s are evicted. -/
def cleanup_threats (now : ℚ) (st : MonState) : MonState :=
  { st with
    reported_threats := st.reported_threats.filter (fun kv => now - kv.2 < 300),
    detection_attempts := st.detection_attempts.filter (fun kv => now - kv.2 < 300) }

/-- The external target a persisted rule maps to during `apply_rules`
(lines 177-180). -/
def ruleTgt (action : String) : String :=
  if strLower action = "block" ∨ strLower action = "drop" then "DROP" else "ACCEPT"

/-- Modelled from the spec's words, for comparison with the code's divisors
(C9): the claim prescribes that every detection-path rate computation divide
by the elapsed span between the oldest and newest retained sample, a zero
span being treated as 1. -/
def claimed_rate_divisor (times : List ℚ) : ℚ :=
  if ddos_time_span times = 0 then 1 else ddos_time_span times

/-- The concrete packet of the C3 counterexample: a plain TCP packet (no SYN
flag, no ICMP layer) from 9.9.9.9. -/
def pktC3 : Packet :=
  ⟨"9.9.9.9", "10.0.0.2", true, false, false, 80, 0, false, 0⟩

/-- The concrete flow state of the C3 counterexample: 60 retained
timestamps spanning 5.9 s (rate 60/5.9 > 10 pps over more than 5 s, firing
the volumetric-flood classifier), no port, SYN or ICMP activity. -/
def statsC3 : FlowStats :=
  ⟨[0, 1/10, 2/10, 3/10, 4/10, 5/10, 6/10, 7/10, 8/10, 9/10, 10/10, 11/10,
    12/10, 13/10, 14/10, 15/10, 16/10, 17/10, 18/10, 19/10, 20/10, 21/10,
    22/10, 23/10, 24/10, 25/10, 26/10, 27/10, 28/10, 29/10, 30/10, 31/10,
    32/10, 33/10, 34/10, 35/10, 36/10, 37/10, 38/10, 39/10, 40/10, 41/10,
    42/10, 43/10, 44/10, 45/10, 46/10, 47/10, 48/10, 49/10, 50/10, 51/10,
    52/10, 53/10, 54/10, 55/10, 56/10, 57/10, 58/10, 59/10],
   [], [], [], 0⟩

/-- The concrete state of the C4 counterexample and witness: an active
external DROP rule for 10.0.0.7, the matching persisted block rule, and a
persisted Threat for that source already transitioned to `blocked`. -/
def stC4 : FwState :=
  ⟨[("10.0.0.7", "DROP")],
    [⟨"t1", "10.0.0.7", "10.0.0.2", "DDoS", "high", "blocked"⟩],
    [⟨"r1", "10.0.0.7", "block"⟩], [], []⟩

/-! ### Helper lemmas -/

theorem seqPrefixB_self_append (n s : List Char) : seqPrefixB n (n ++ s) = true := by
  induction n with
  | nil => rfl
  | cons a as ih => simp [seqPrefixB, ih]

theorem subSeq_nil_needle (h : List Char) : subSeq [] h = true := by
  induction h with
  | nil => rfl
  | cons c cs ih => simp [subSeq, seqPrefixB]

/-- A needle occurring contiguously inside a haystack is found by `subSeq`. -/
theorem subSeq_sandwich (n pre suf : List Char) : subSeq n (pre ++ n ++ suf) = true := by
  induction pre with
  | nil =>
    cases n with
    | nil => simpa using subSeq_nil_needle suf
    | cons a as =>
      have h : seqPrefixB (a :: as) ((a :: as) ++ suf) = true := seqPrefixB_self_append _ _
      simp only [List.nil_append, subSeq, Bool.or_eq_true]
      exact Or.inl (by simpa using h)
  | cons p ps ih =>
    simp only [List.cons_append, subSeq, Bool.or_eq_true]
    refine Or.inr ?_
    simpa [List.append_assoc] using ih

/-- A fully successful command: with an exhausted (all-success) oracle the
command mutates the chain, extends the trace, and reports success. -/
theorem exec_all_success (cmd : IptCmd) (st : FwState) (h : st.oracle = []) :
    execute_iptables_command cmd st
      = (true, ⟨applyCmd cmd st.iptables, st.threats, st.firewall_rules,
          st.trace ++ [cmd], []⟩) := by
  unfold execute_iptables_command
  rw [h]
  rfl

/-- A failing command: the chain and the persisted store are untouched, one
command is appended to the trace, and failure is reported. -/
theorem exec_fail (cmd : IptCmd) (st : FwState) (h : st.oracle.headD true = false) :
    execute_iptables_command cmd st
      = (false, ⟨st.iptables, st.threats, st.firewall_rules,
          st.trace ++ [cmd], st.oracle.tail⟩) := by
  unfold execute_iptables_command
  rw [h]
  rfl

theorem exec_trace_eq (cmd : IptCmd) (st : FwState) :
    (execute_iptables_command cmd st).2.trace = st.trace ++ [cmd] := by
  rcases Bool.eq_false_or_eq_true (st.oracle.headD true) with hb | hb <;>
    rw [execute_iptables_command, hb] <;> simp

theorem exec_fst_eq (cmd : IptCmd) (st : FwState) :
    (execute_iptables_command cmd st).1 = st.oracle.headD true := by
  rcases Bool.eq_false_or_eq_true (st.oracle.headD true) with hb | hb <;>
    rw [execute_iptables_command, hb] <;> simp

theorem update_threat_status_iptables (ip s : String) (st : FwState) :
    (update_threat_status ip s st).iptables = st.iptables := rfl

theorem update_threat_status_rules (ip s : String) (st : FwState) :
    (update_threat_status ip s st).firewall_rules = st.firewall_rules := rfl

theorem update_threat_status_trace (ip s : String) (st : FwState) :
    (update_threat_status ip s st).trace = st.trace := rfl

theorem update_threat_status_oracle (ip s : String) (st : FwState) :
    (update_threat_status ip s st).oracle = st.oracle := rfl

/-- The listing line rendered for a DROP rule on `s` matches `s`/"block". -/
theorem lineMatches_self_drop (s : String) :
    lineMatches s (targetOf "block") (s, "DROP") = true := by
  have ht : targetOf "block" = "DROP" := by decide
  rw [ht]
  unfold lineMatches renderLine
  simp only [Bool.and_eq_true, Bool.not_eq_true]
  refine ⟨⟨⟨?_, ?_⟩, ?_⟩, ?_⟩
  · exact subSeq_sandwich s.data (("DROP" : String).data ++ ("       all  --  " : String).data)
      ("            0.0.0.0/0" : String).data
  · have h := subSeq_sandwich ("DROP" : String).data []
      (("       all  --  " : String).data ++ s.data ++ ("            0.0.0.0/0" : String).data)
    simpa [List.append_assoc] using h
  · simp [seqPrefixB, List.append_assoc]
  · simp [seqPrefixB, List.append_assoc]

/-- After appending a DROP line for `s`, `_rule_exists(s, "block")` holds. -/
theorem rule_exists_append_drop (lines : List (String × String)) (s : String) :
    rule_exists (lines ++ [(s, "DROP")]) s "block" = true := by
  unfold rule_exists
  rw [List.any_append]
  simp [List.any_cons, lineMatches_self_drop]

/-- Reduction of `add_rule` with action "block" reduces to the shared body with target
DROP, normalized "block", conflicting "allow". -/
theorem add_rule_block_eq (src fid : String) (st : FwState) :
    add_rule ⟨some src, some "block", none⟩ fid st
      = addRuleCore src "DROP" "block" "allow" fid st := by
  have h : strLower "block" = "block" := rfl
  unfold add_rule
  simp [h]

/-- Reduction of `add_rule` with action "allow" reduces to the shared body with target
ACCEPT, normalized "allow", conflicting "block". -/
theorem add_rule_allow_eq (src fid : String) (st : FwState) :
    add_rule ⟨some src, some "allow", none⟩ fid st
      = addRuleCore src "ACCEPT" "allow" "block" fid st := by
  have h : strLower "allow" = "allow" := rfl
  unfold add_rule
  simp [h]

/-- Success path of the shared `add_rule` body when no conflicting and no
identical rule exists at the filter and every command succeeds. -/
theorem addRuleCore_insert (src tgt normalized conflicting rid : String) (st : FwState)
    (hconf : rule_exists st.iptables src conflicting = false)
    (hsame : rule_exists st.iptables src normalized = false)
    (hor : st.oracle = []) :
    addRuleCore src tgt normalized conflicting rid st
      = (true,
          if normalized = "block" then
            update_threat_status src "blocked"
              ⟨st.iptables ++ [(src, tgt)], st.threats,
                st.firewall_rules ++ [⟨rid, src, normalized⟩],
                st.trace ++ [.append src tgt], []⟩
          else
            ⟨st.iptables ++ [(src, tgt)], st.threats,
              st.firewall_rules ++ [⟨rid, src, normalized⟩],
              st.trace ++ [.append src tgt], []⟩) := by
  unfold addRuleCore
  rw [hconf]
  simp only [Bool.false_eq_true, if_false, if_true]
  rw [hsame]
  simp only [Bool.false_eq_true, if_false]
  rw [exec_all_success _ _ hor]
  simp [applyCmd]

/-- Already-applied path of the shared `add_rule` body: an identical rule is
seen at the filter, so nothing at all happens and success is reported. -/
theorem addRuleCore_already (src tgt normalized conflicting rid : String) (st : FwState)
    (hconf : rule_exists st.iptables src conflicting = false)
    (hsame : rule_exists st.iptables src normalized = true) :
    addRuleCore src tgt normalized conflicting rid st = (true, st) := by
  unfold addRuleCore
  rw [hconf]
  simp only [Bool.false_eq_true, if_false, if_true]
  rw [hsame]
  simp

/-- Conflict-resolution path of the shared `add_rule` body: the opposite
verdict is seen at the filter, so one deletion is issued and the persisted
rule for the address is dropped, then one insertion is issued and persisted;
for a non-"block" normalized action the threat list is untouched. -/
theorem addRuleCore_conflict (src tgt normalized conflicting rid : String) (st : FwState)
    (hconf : rule_exists st.iptables src conflicting = true)
    (hsame : rule_exists (removeFirstPair (src, targetOf conflicting) st.iptables)
        src normalized = false)
    (hnb : normalized ≠ "block")
    (hor : st.oracle = []) :
    addRuleCore src tgt normalized conflicting rid st
      = (true,
          ⟨removeFirstPair (src, targetOf conflicting) st.iptables ++ [(src, tgt)],
            st.threats,
            (remove_firewall_rule src st.firewall_rules).2 ++ [⟨rid, src, normalized⟩],
            st.trace ++ [.delete src (targetOf conflicting), .append src tgt], []⟩) := by
  unfold addRuleCore remove_conflicting_rule
  rw [hconf]
  rw [exec_all_success _ _ hor]
  simp only [applyCmd, if_true]
  rw [exec_all_success]
  · simp [applyCmd, hsame, hnb, List.append_assoc]
  · rfl

/-- Projecting the first component of an if-expression whose branches agree
on it. -/
theorem fst_if_pair {α β : Type} (c : Prop) [Decidable c] (x : α) (a b : β) :
    (if c then (x, a) else (x, b)).1 = x := by
  split <;> rfl

/-- The threat key produced by the cascade is the one of the LAST block
whose protocol guard matched (echo request, else TCP SYN, else TCP/UDP,
else a window of more than 5 timestamps) — later blocks overwrite it even
when their own thresholds do not fire. -/
theorem classify_key_eq (pkt : Packet) (stats : FlowStats) :
    (classify pkt stats).threat_key =
      if pkt.isICMP && pkt.icmpType == 8 then some (pkt.src ++ ":ICMPFlood")
      else if pkt.isTCP && pkt.synFlag then
        some (pkt.src ++ ":BruteForce:" ++ toString pkt.tcpDport)
      else if pkt.isTCP || pkt.isUDP then some (pkt.src ++ ":PortScan")
      else if stats.times.length > 5 then some (pkt.src ++ ":DDoS")
      else none := by
  unfold classify
  by_cases h4 : (pkt.isICMP && pkt.icmpType == 8) = true <;>
    by_cases h3 : (pkt.isTCP && pkt.synFlag) = true <;>
      by_cases h2 : (pkt.isTCP || pkt.isUDP) = true <;>
        by_cases h1 : stats.times.length > 5 <;>
          simp only [h4, h3, h2, h1, if_true, if_false, eq_self_iff_true,
            if_pos, fst_if_pair, not_true, not_false_iff] <;>
          simp [h4, h3, h2, h1, fst_if_pair]

/-- On a plain TCP packet (no SYN, no ICMP) whose flow fires the
volumetric-flood thresholds but not the port-scan one, the cascade's
category is the volumetric one. -/
theorem classify_type_tcp_ddos (pkt : Packet) (stats : FlowStats)
    (htcp : pkt.isTCP = true) (hsyn : pkt.synFlag = false) (hicmp : pkt.isICMP = false)
    (hlen : stats.times.length > 5)
    (hrate : ddos_packet_rate stats.times > 10) (hspan : ddos_time_span stats.times > 5)
    (hports : ¬ stats.ports.length > 3) :
    (classify pkt stats).threat_type = some "DDoS" := by
  unfold classify
  simp [htcp, hsyn, hicmp, hlen, hrate, hspan, hports]

/-! ### Claim C1: removeIntent on a fully absent rule -/

/-- C1 counterexample: for the address `10.9.8.7`, with an empty persisted
rule set and an empty external filter, `remove_rule` does NOT return success
as the claim states — it returns `False` (while indeed issuing no filter
command). -/
theorem C1_counterexample :
    (FwState.mk [] [] [] [] []).firewall_rules.find?
        (fun r => r.id == "10.9.8.7" || r.source_ip == "10.9.8.7") = none ∧
    rule_exists (FwState.mk [] [] [] [] []).iptables "10.9.8.7" "block" = false ∧
    ¬ (remove_rule "10.9.8.7" (FwState.mk [] [] [] [] [])).1 = true ∧
    (remove_rule "10.9.8.7" (FwState.mk [] [] [] [] [])).2.trace = [] := by
  decide

/-- C1 (amended): for every identifier-or-address with no matching persisted
rule and no matching external block rule, `remove_rule` returns FAILURE
(`False`), not success, and issues no filter command (the state is entirely
unchanged). -/
theorem C1_amended (x : String) (st : FwState)
    (hstore : st.firewall_rules.find? (fun r => r.id == x || r.source_ip == x) = none)
    (hext : rule_exists st.iptables x "block" = false) :
    remove_rule x st = (false, st) := by
  unfold remove_rule
  rw [hstore, hext]
  simp

/-- C1 witness: the amended theorem applied at the empty state. -/
theorem C1_witness :
    (FwState.mk [] [] [] [] []).firewall_rules.find?
        (fun r => r.id == "10.9.8.7" || r.source_ip == "10.9.8.7") = none ∧
    rule_exists (FwState.mk [] [] [] [] []).iptables "10.9.8.7" "block" = false ∧
    remove_rule "10.9.8.7" (FwState.mk [] [] [] [] []) = (false, FwState.mk [] [] [] [] []) :=
  ⟨rfl, rfl, C1_amended "10.9.8.7" (FwState.mk [] [] [] [] []) rfl rfl⟩

/-! ### Claim C2: retry policy of external commands -/

/-- C2 counterexample: with an outcome oracle `[false, true]` (the first
attempt fails, a second attempt would succeed) a single call to
`_execute_iptables_command` surfaces failure after exactly one issued
command — there is no retry; and `remove_rule` for a persisted rule whose
external deletion fails (the rule being absent at the filter) returns
failure, not success. -/
theorem C2_counterexample :
    (execute_iptables_command (.delete "1.2.3.4" "DROP")
        (FwState.mk [] [] [] [] [false, true])).1 = false ∧
    (execute_iptables_command (.delete "1.2.3.4" "DROP")
        (FwState.mk [] [] [] [] [false, true])).2.trace = [.delete "1.2.3.4" "DROP"] ∧
    (execute_iptables_command (.delete "1.2.3.4" "DROP")
        (FwState.mk [] [] [] [] [false, true])).2.oracle = [true] ∧
    (remove_rule "2.3.4.5"
        (FwState.mk [] [] [⟨"r1", "2.3.4.5", "block"⟩] [] [false])).1 = false := by
  decide

/-- C2 (amended): every external filter command is executed exactly once —
the outcome is exactly the oracle's verdict for that single attempt, with
one command appended to the trace and no retry; and a deletion command that
fails (including because the target rule does not exist) surfaces as failure
from `remove_rule`, leaving the persisted rule set unchanged. -/
theorem C2_amended (cmd : IptCmd) (st : FwState) (x : String) (r : FwRule) (st2 : FwState)
    (hfind : st2.firewall_rules.find? (fun q => q.id == x || q.source_ip == x) = some r)
    (hfail : st2.oracle.headD true = false) :
    (execute_iptables_command cmd st).2.trace = st.trace ++ [cmd] ∧
    (execute_iptables_command cmd st).1 = st.oracle.headD true ∧
    (remove_rule x st2).1 = false ∧
    (remove_rule x st2).2.firewall_rules = st2.firewall_rules := by
  have hex := exec_fail
    (.delete r.source_ip
      (if strLower r.action = "block" ∨ strLower r.action = "drop" then "DROP" else "ACCEPT"))
    st2 hfail
  have hrem : remove_rule x st2
      = (false, ⟨st2.iptables, st2.threats, st2.firewall_rules,
          st2.trace ++
            [.delete r.source_ip
              (if strLower r.action = "block" ∨ strLower r.action = "drop" then "DROP"
              else "ACCEPT")],
          st2.oracle.tail⟩) := by
    unfold remove_rule
    rw [hfind]
    simp only [hex]
    rfl
  exact ⟨exec_trace_eq cmd st, exec_fst_eq cmd st, by rw [hrem], by rw [hrem]⟩

/-- C2 witness: the amended theorem applied at a concrete command, state and
persisted rule with a failing oracle. -/
theorem C2_witness :
    (FwState.mk [] [] [⟨"r1", "2.3.4.5", "block"⟩] [] [false]).firewall_rules.find?
        (fun q => q.id == "2.3.4.5" || q.source_ip == "2.3.4.5")
      = some ⟨"r1", "2.3.4.5", "block"⟩ ∧
    (FwState.mk [] [] [⟨"r1", "2.3.4.5", "block"⟩] [] [false]).oracle.headD true = false ∧
    ((execute_iptables_command .flush (FwState.mk [] [] [] [] [])).2.trace = [] ++ [.flush] ∧
      (execute_iptables_command .flush (FwState.mk [] [] [] [] [])).1
        = (FwState.mk [] [] [] [] []).oracle.headD true ∧
      (remove_rule "2.3.4.5"
          (FwState.mk [] [] [⟨"r1", "2.3.4.5", "block"⟩] [] [false])).1 = false ∧
      (remove_rule "2.3.4.5"
          (FwState.mk [] [] [⟨"r1", "2.3.4.5", "block"⟩] [] [false])).2.firewall_rules
        = (FwState.mk [] [] [⟨"r1", "2.3.4.5", "block"⟩] [] [false]).firewall_rules) :=
  ⟨rfl, rfl,
    C2_amended .flush (FwState.mk [] [] [] [] []) "2.3.4.5" ⟨"r1", "2.3.4.5", "block"⟩
      (FwState.mk [] [] [⟨"r1", "2.3.4.5", "block"⟩] [] [false]) rfl rfl⟩

/-! ### Claim C10: substring confusion in `_rule_exists` -/

/-- C10: `_rule_exists` decides existence by substring containment of the
source address in each listing line, so for the distinct addresses
`10.0.0.1` and `10.0.0.11` (the first a textual prefix of the second) an
external state holding only a DROP rule for `10.0.0.11` makes
`_rule_exists("10.0.0.1", "block")` true; consequently `add_rule`'s
already-applied decision reports a block for `10.0.0.1` as already applied
(successfully doing nothing), and its conflict-removal decision issues a
deletion command for `10.0.0.1` although that address holds no rule. -/
theorem C10_spec :
    ("10.0.0.1" : String) ≠ "10.0.0.11" ∧
    ((([("10.0.0.11", "DROP")] : List (String × String))).all
        (fun l => l.1 != "10.0.0.1")) = true ∧
    rule_exists [("10.0.0.11", "DROP")] "10.0.0.1" "block" = true ∧
    add_rule ⟨some "10.0.0.1", some "block", none⟩ "rid1"
        (FwState.mk [("10.0.0.11", "DROP")] [] [] [] [])
      = (true, FwState.mk [("10.0.0.11", "DROP")] [] [] [] []) ∧
    (add_rule ⟨some "10.0.0.1", some "allow", none⟩ "rid2"
        (FwState.mk [("10.0.0.11", "DROP")] [] [] [] [])).2.trace.head?
      = some (.delete "10.0.0.1" "DROP") := by
  decide

/-! ### Claim C4: allow intent over an active block rule -/

/-- C4 counterexample: starting from a state where 10.0.0.7 holds an active
block rule and its persisted Threat is `blocked`, applying the allow intent
succeeds, but the persisted Threat record still ends with status `blocked`,
not `detected` as the claim states (the allow path never touches threat
status). -/
theorem C4_counterexample :
    rule_exists stC4.iptables "10.0.0.7" "block" = true ∧
    (add_rule ⟨some "10.0.0.7", some "allow", none⟩ "r2" stC4).1 = true ∧
    List.map Threat.status
        (add_rule ⟨some "10.0.0.7", some "allow", none⟩ "r2" stC4).2.threats
      = ["blocked"] ∧
    ("blocked" : String) ≠ "detected" := by
  decide

/-- C4 (amended): for every address holding an active block rule at the
external filter (and none matching the allow verdict after its removal),
applying an allow intent performs exactly one removal — the deletion command
at the filter together with the removal from the persisted set — followed by
exactly one insertion of the allow rule, and leaves every persisted Threat
record's status UNCHANGED (in particular a `blocked` threat stays `blocked`;
only `remove_rule` reverts statuses to `detected`). -/
theorem C4_amended (a fid : String) (st : FwState)
    (hb : rule_exists st.iptables a "block" = true)
    (ha : rule_exists (removeFirstPair (a, "DROP") st.iptables) a "allow" = false)
    (hor : st.oracle = []) :
    add_rule ⟨some a, some "allow", none⟩ fid st
      = (true,
          ⟨removeFirstPair (a, "DROP") st.iptables ++ [(a, "ACCEPT")],
            st.threats,
            (remove_firewall_rule a st.firewall_rules).2 ++ [⟨fid, a, "allow"⟩],
            st.trace ++ [.delete a "DROP", .append a "ACCEPT"], []⟩) := by
  have ht : targetOf "block" = "DROP" := by decide
  have ha2 : rule_exists (removeFirstPair (a, targetOf "block") st.iptables) a "allow"
      = false := by
    rw [ht]; exact ha
  have h := addRuleCore_conflict a "ACCEPT" "allow" "block" fid st hb ha2
    (by decide) hor
  rw [ht] at h
  rw [add_rule_allow_eq]
  exact h

/-- C4 witness: the amended theorem applied at the concrete C4 state. -/
theorem C4_witness :
    rule_exists stC4.iptables "10.0.0.7" "block" = true ∧
    rule_exists (removeFirstPair ("10.0.0.7", "DROP") stC4.iptables) "10.0.0.7" "allow"
      = false ∧
    add_rule ⟨some "10.0.0.7", some "allow", none⟩ "r2" stC4
      = (true,
          ⟨removeFirstPair ("10.0.0.7", "DROP") stC4.iptables ++ [("10.0.0.7", "ACCEPT")],
            stC4.threats,
            (remove_firewall_rule "10.0.0.7" stC4.firewall_rules).2
              ++ [⟨"r2", "10.0.0.7", "allow"⟩],
            stC4.trace ++ [.delete "10.0.0.7" "DROP", .append "10.0.0.7" "ACCEPT"], []⟩) :=
  ⟨by decide, by decide, C4_amended "10.0.0.7" "r2" stC4 (by decide) (by decide) rfl⟩

/-! ### Claim C5: idempotence of block intents -/

/-- C5: applying the same `(address, block)` intent twice from a state with
no rule for that address (at the filter or persisted) and a healthy backend
succeeds both times, leaves exactly one persisted Rule record for the
address, and issues exactly one external insertion command: the second
application is absorbed by the already-applied check. -/
theorem C5_spec (a fid1 fid2 : String) (st : FwState)
    (h1 : rule_exists st.iptables a "allow" = false)
    (h2 : rule_exists st.iptables a "block" = false)
    (h3 : rule_exists (st.iptables ++ [(a, "DROP")]) a "allow" = false)
    (hor : st.oracle = [])
    (hrules : st.firewall_rules.filter (fun r => r.source_ip == a) = []) :
    (add_rule ⟨some a, some "block", none⟩ fid1 st).1 = true ∧
    (add_rule ⟨some a, some "block", none⟩ fid2
        (add_rule ⟨some a, some "block", none⟩ fid1 st).2).1 = true ∧
    (add_rule ⟨some a, some "block", none⟩ fid2
        (add_rule ⟨some a, some "block", none⟩ fid1 st).2).2.firewall_rules.filter
        (fun r => r.source_ip == a)
      = [⟨fid1, a, "block"⟩] ∧
    (add_rule ⟨some a, some "block", none⟩ fid2
        (add_rule ⟨some a, some "block", none⟩ fid1 st).2).2.trace
      = st.trace ++ [.append a "DROP"] := by
  have e1 : add_rule ⟨some a, some "block", none⟩ fid1 st
      = (true, update_threat_status a "blocked"
          ⟨st.iptables ++ [(a, "DROP")], st.threats,
            st.firewall_rules ++ [⟨fid1, a, "block"⟩],
            st.trace ++ [.append a "DROP"], []⟩) := by
    rw [add_rule_block_eq, addRuleCore_insert a "DROP" "block" "allow" fid1 st h1 h2 hor]
    simp
  have e2 : add_rule ⟨some a, some "block", none⟩ fid2
      (add_rule ⟨some a, some "block", none⟩ fid1 st).2
      = (true, update_threat_status a "blocked"
          ⟨st.iptables ++ [(a, "DROP")], st.threats,
            st.firewall_rules ++ [⟨fid1, a, "block"⟩],
            st.trace ++ [.append a "DROP"], []⟩) := by
    rw [e1, add_rule_block_eq]
    exact addRuleCore_already a "DROP" "block" "allow" fid2 _ h3
      (rule_exists_append_drop st.iptables a)
  refine ⟨by rw [e1], by rw [e2], ?_, ?_⟩
  · rw [e2]
    have hr : (update_threat_status a "blocked"
        ⟨st.iptables ++ [(a, "DROP")], st.threats,
          st.firewall_rules ++ [⟨fid1, a, "block"⟩],
          st.trace ++ [.append a "DROP"], []⟩).firewall_rules
        = st.firewall_rules ++ [⟨fid1, a, "block"⟩] := rfl
    simp [hr, List.filter_append, hrules]
  · rw [e2]
    rfl

/-- C5 witness: the theorem applied at the empty state for 7.7.7.7. -/
theorem C5_witness :
    rule_exists (([] : List (String × String)) ++ [("7.7.7.7", "DROP")]) "7.7.7.7" "allow"
      = false ∧
    ((add_rule ⟨some "7.7.7.7", some "block", none⟩ "f1" (FwState.mk [] [] [] [] [])).1
        = true ∧
      (add_rule ⟨some "7.7.7.7", some "block", none⟩ "f2"
          (add_rule ⟨some "7.7.7.7", some "block", none⟩ "f1"
            (FwState.mk [] [] [] [] [])).2).1 = true ∧
      (add_rule ⟨some "7.7.7.7", some "block", none⟩ "f2"
          (add_rule ⟨some "7.7.7.7", some "block", none⟩ "f1"
            (FwState.mk [] [] [] [] [])).2).2.firewall_rules.filter
          (fun r => r.source_ip == "7.7.7.7")
        = [⟨"f1", "7.7.7.7", "block"⟩] ∧
      (add_rule ⟨some "7.7.7.7", some "block", none⟩ "f2"
          (add_rule ⟨some "7.7.7.7", some "block", none⟩ "f1"
            (FwState.mk [] [] [] [] [])).2).2.trace
        = ([] : List IptCmd) ++ [.append "7.7.7.7" "DROP"]) :=
  ⟨by decide,
    C5_spec "7.7.7.7" "f1" "f2" (FwState.mk [] [] [] [] [])
      (by decide) (by decide) (by decide) rfl rfl⟩

/-! ### Claim C3: classifier evaluation order and short-circuit -/

/-- C3 counterexample: for a plain TCP packet from 9.9.9.9 whose flow fires
the volumetric-flood classifier (60 packets over 5.9 s), the port-scan block
still runs and overwrites the threat key, so the candidate carries the
volumetric-flood category together with the PORT-SCAN key — a positive
volumetric-flood verdict does not short-circuit the remaining classifiers. -/
theorem C3_counterexample :
    (classify pktC3 statsC3).threat_type = some "DDoS" ∧
    (classify pktC3 statsC3).threat_key = some "9.9.9.9:PortScan" ∧
    some "9.9.9.9:PortScan" ≠ some ("9.9.9.9" ++ ":DDoS") := by
  have hlast : statsC3.times.getLastD 0 = 59 / 10 := rfl
  have hhead : statsC3.times.headD 0 = 0 := rfl
  have hlen60 : statsC3.times.length = 60 := rfl
  have hspan : ddos_time_span statsC3.times > 5 := by
    unfold ddos_time_span
    rw [hlast, hhead]
    norm_num
  have hrate : ddos_packet_rate statsC3.times > 10 := by
    unfold ddos_packet_rate ddos_divisor ddos_time_span
    rw [hlast, hhead, hlen60]
    norm_num
  refine ⟨?_, ?_, by decide⟩
  · exact classify_type_tcp_ddos pktC3 statsC3 rfl rfl rfl
      (by rw [hlen60]; norm_num) hrate hspan (by decide)
  · rw [classify_key_eq]
    decide

/-- C3 (amended): the four classifiers are evaluated in the order
volumetric-flood, port-scan, connection-flood, echo-flood, but a positive
volumetric-flood verdict does NOT short-circuit the remaining blocks: each
later block overwrites the candidate's threat key whenever its protocol
guard matches (even if its threshold does not fire), so the key finally
produced is the last matching block's key — the volumetric-flood key only
when the packet has no TCP, UDP or echo-request layer. -/
theorem C3_amended (pkt : Packet) (stats : FlowStats) :
    (classify pkt stats).threat_key =
      if pkt.isICMP && pkt.icmpType == 8 then some (pkt.src ++ ":ICMPFlood")
      else if pkt.isTCP && pkt.synFlag then
        some (pkt.src ++ ":BruteForce:" ++ toString pkt.tcpDport)
      else if pkt.isTCP || pkt.isUDP then some (pkt.src ++ ":PortScan")
      else if stats.times.length > 5 then some (pkt.src ++ ":DDoS")
      else none :=
  classify_key_eq pkt stats

/-! ### Claim C8: reapply / apply_rules round-trip -/

/-- Effect of the reinsertion loop of `apply_rules` under a healthy backend:
every persisted rule with a recognized verdict is appended, in order, as its
normalized external line, and only the chain and the trace change. -/
theorem foldl_applyRuleStep (rules : List FwRule) (s : FwState)
    (hor : s.oracle = [])
    (hact : ∀ r ∈ rules, strLower r.action = "block" ∨ strLower r.action = "drop" ∨
        strLower r.action = "allow" ∨ strLower r.action = "accept") :
    rules.foldl applyRuleStep s
      = ⟨s.iptables ++ rules.map (fun r => (r.source_ip, ruleTgt r.action)),
          s.threats, s.firewall_rules,
          s.trace ++ rules.map (fun r => .append r.source_ip (ruleTgt r.action)), []⟩ := by
  induction rules generalizing s with
  | nil =>
    cases s
    simp_all
  | cons r rs ih =>
    have hr := hact r (List.mem_cons_self r rs)
    have hstep : applyRuleStep s r
        = ⟨s.iptables ++ [(r.source_ip, ruleTgt r.action)], s.threats, s.firewall_rules,
            s.trace ++ [.append r.source_ip (ruleTgt r.action)], []⟩ := by
      rcases hr with h | h | h | h
      · have e := exec_all_success (.append r.source_ip "DROP") s hor
        unfold applyRuleStep ruleTgt
        simp [h, e, applyCmd]
      · have e := exec_all_success (.append r.source_ip "DROP") s hor
        unfold applyRuleStep ruleTgt
        simp [h, e, applyCmd]
      · have e := exec_all_success (.append r.source_ip "ACCEPT") s hor
        unfold applyRuleStep ruleTgt
        simp [h, e, applyCmd]
      · have e := exec_all_success (.append r.source_ip "ACCEPT") s hor
        unfold applyRuleStep ruleTgt
        simp [h, e, applyCmd]
    rw [List.foldl_cons, hstep,
      ih _ rfl (fun q hq => hact q (List.mem_cons_of_mem r hq))]
    simp [List.append_assoc]

/-- C8: `apply_rules` never fails — whatever the backend's command outcomes,
it returns success; and under a healthy backend, from any prior external
state, it first clears the chain and then reinserts every persisted rule
(all carrying recognized verdicts) in persisted order, so that the final
external chain is exactly the persisted Rule set rendered as
(address, verdict) pairs. -/
theorem C8_spec (st : FwState)
    (hor : st.oracle = [])
    (hact : ∀ r ∈ st.firewall_rules, strLower r.action = "block" ∨
        strLower r.action = "drop" ∨ strLower r.action = "allow" ∨
        strLower r.action = "accept") :
    (apply_rules st).1 = true ∧
    (apply_rules st).2.iptables
      = st.firewall_rules.map (fun r => (r.source_ip, ruleTgt r.action)) ∧
    (apply_rules st).2.trace
      = st.trace ++ [.flush]
          ++ st.firewall_rules.map (fun r => .append r.source_ip (ruleTgt r.action)) ∧
    (apply_rules st).2.firewall_rules = st.firewall_rules ∧
    (∀ st2 : FwState, (apply_rules st2).1 = true) := by
  have e := exec_all_success .flush st hor
  have h2 : (apply_rules st).2
      = ⟨([] : List (String × String))
            ++ st.firewall_rules.map (fun r => (r.source_ip, ruleTgt r.action)),
          st.threats, st.firewall_rules,
          (st.trace ++ [.flush])
            ++ st.firewall_rules.map (fun r => .append r.source_ip (ruleTgt r.action)),
          []⟩ := by
    unfold apply_rules
    rw [e]
    exact foldl_applyRuleStep st.firewall_rules _ rfl hact
  refine ⟨rfl, ?_, ?_, ?_, fun st2 => rfl⟩
  · rw [h2]
    simp
  · rw [h2]
  · rw [h2]

/-- C8 witness: the theorem applied at a state whose external chain holds a
stale entry and whose persisted set holds one block and one allow rule. -/
theorem C8_witness :
    (∀ r ∈ (FwState.mk [("5.5.5.5", "ACCEPT")] []
        [⟨"r1", "1.1.1.1", "block"⟩, ⟨"r2", "2.2.2.2", "allow"⟩] [] []).firewall_rules,
      strLower r.action = "block" ∨ strLower r.action = "drop" ∨
        strLower r.action = "allow" ∨ strLower r.action = "accept") ∧
    (apply_rules (FwState.mk [("5.5.5.5", "ACCEPT")] []
        [⟨"r1", "1.1.1.1", "block"⟩, ⟨"r2", "2.2.2.2", "allow"⟩] [] [])).1 = true ∧
    (apply_rules (FwState.mk [("5.5.5.5", "ACCEPT")] []
        [⟨"r1", "1.1.1.1", "block"⟩, ⟨"r2", "2.2.2.2", "allow"⟩] [] [])).2.iptables
      = [("1.1.1.1", "DROP"), ("2.2.2.2", "ACCEPT")] := by
  have h := C8_spec (FwState.mk [("5.5.5.5", "ACCEPT")] []
      [⟨"r1", "1.1.1.1", "block"⟩, ⟨"r2", "2.2.2.2", "allow"⟩] [] []) rfl (by decide)
  refine ⟨by decide, h.1, ?_⟩
  rw [h.2.1]
  decide

/-! ### Claim C9: rate-computation divisors -/

/-- C9 counterexample: for the one-sample window `[5]` observed at time 5
with `last_reset = 5`, the oldest-to-newest span is 0, so the claim
prescribes divisor 1, but the feature-extraction rate computation
(line 89 of security_monitor.py) uses divisor `now - last_reset = 0`. -/
theorem C9_counterexample :
    ddos_time_span [(5 : ℚ)] = 0 ∧
    claimed_rate_divisor [(5 : ℚ)] = 1 ∧
    extract_divisor [(5 : ℚ)] 5 5 = 0 ∧
    extract_divisor [(5 : ℚ)] 5 5 ≠ claimed_rate_divisor [(5 : ℚ)] := by
  norm_num [extract_divisor, claimed_rate_divisor, ddos_time_span, List.getLastD, List.headD]

/-- C9 (amended): the volumetric-flood rate computation (line 188) divides
the sample count by the oldest-to-newest span with a non-positive span
replaced by 1, so its divisor is always positive and the rate times the
divisor recovers the count (no division by zero); the feature-extraction
rate (line 89) instead divides by the time elapsed since the last counter
reset whenever the window is non-empty (using 0.001 only for an empty
window), a divisor that is 0 — not 1 — when no time has elapsed. -/
theorem C9_amended :
    (∀ times : List ℚ, 0 < ddos_divisor times) ∧
    (∀ times : List ℚ, ddos_packet_rate times * ddos_divisor times = (times.length : ℚ)) ∧
    (∀ lastReset now : ℚ, extract_divisor [] lastReset now = 1 / 1000) ∧
    (∀ (t : ℚ) (ts : List ℚ) (lastReset now : ℚ),
        extract_divisor (t :: ts) lastReset now = now - lastReset) := by
  have hpos : ∀ times : List ℚ, 0 < ddos_divisor times := by
    intro times
    unfold ddos_divisor
    split
    · assumption
    · norm_num
  refine ⟨hpos, ?_, ?_, ?_⟩
  · intro times
    unfold ddos_packet_rate
    exact div_mul_cancel₀ _ (ne_of_gt (hpos times))
  · intro lastReset now
    simp [extract_divisor]
  · intro t ts lastReset now
    simp [extract_divisor]

/-! ### Dictionary lemmas for the suppression state -/

theorem find_dput_self (m : List (String × ℚ)) (k : String) (v : ℚ) :
    (dput m k v).find? (fun kv => kv.1 == k) = some (k, v) := by
  induction m with
  | nil => simp [dput]
  | cons kv rest ih =>
    rcases kv with ⟨k1, v1⟩
    by_cases h : k1 = k
    · simp [dput, h]
    · simp [dput, h, ih]

theorem dget_dput_self (m : List (String × ℚ)) (k : String) (v : ℚ) :
    dget (dput m k v) k = some v := by
  simp [dget, find_dput_self]

theorem find_eq_none_of_no_key (k : String) :
    ∀ m : List (String × ℚ), (∀ kv ∈ m, kv.1 ≠ k) →
      m.find? (fun kv => kv.1 == k) = none := by
  intro m
  induction m with
  | nil => intro _; rfl
  | cons kv rest ih =>
    intro h
    have h1 : (kv.1 == k) = false := by
      simpa using h kv (List.mem_cons_self kv rest)
    simp only [List.find?]
    rw [h1]
    exact ih (fun q hq => h q (List.mem_cons_of_mem kv hq))

theorem dget_filter_none (p : String × ℚ → Bool) (m : List (String × ℚ)) (k : String)
    (h : dget m k = none) : dget (m.filter p) k = none := by
  unfold dget at h ⊢
  rw [Option.map_eq_none'] at h ⊢
  rw [List.find?_eq_none] at h ⊢
  intro x hx
  exact h x (List.mem_of_mem_filter hx)

/-- Every entry of the key being at least 300 s old, the cleanup filter
evicts the key entirely. -/
theorem dget_cleanup_evict (now : ℚ) (m : List (String × ℚ)) (k : String)
    (h : ∀ v : ℚ, (k, v) ∈ m → now - v ≥ 300) :
    dget (m.filter (fun kv => now - kv.2 < 300)) k = none := by
  unfold dget
  rw [Option.map_eq_none', List.find?_eq_none]
  intro x hx
  rcases List.mem_filter.mp hx with ⟨hm, hp⟩
  intro hk
  rcases x with ⟨k1, v1⟩
  simp only [beq_iff_eq] at hk
  subst hk
  have := h v1 hm
  simp only [decide_eq_true_eq] at hp
  linarith

/-! ### Claim C6: reported-key suppression window -/

/-- C6: while a threat key is in the reported set, every candidate carrying
that key is suppressed without creating a Threat record or touching any
state; a cleanup pass at least 300 s after every report of the key evicts
it; after eviction a recurring candidate (rule-based path) creates exactly
one more Threat record, and the key is immediately suppressed again. -/
theorem C6_spec (key ttype sev src dst fid1 : String) (st : MonState) (tE : ℚ)
    (hrep : (dget st.reported_threats key).isSome = true)
    (hold : ∀ v : ℚ, (key, v) ∈ st.reported_threats → tE - v ≥ 300)
    (hatt : dget st.detection_attempts key = none) :
    (∀ (now : ℚ) (sess : Bool) (mlr : Option (ℕ × ℚ)) (fid : String),
      process_candidate ⟨some key, some ttype, sev⟩ src dst now sess mlr fid st
        = ⟨st, none, false⟩) ∧
    dget (cleanup_threats tE st).reported_threats key = none ∧
    (process_candidate ⟨some key, some ttype, sev⟩ src dst tE false none fid1
        (cleanup_threats tE st)).created
      = some (create_threat fid1 src dst ttype sev) ∧
    (process_candidate ⟨some key, some ttype, sev⟩ src dst tE false none fid1
        (cleanup_threats tE st)).st.threats
      = (cleanup_threats tE st).threats ++ [create_threat fid1 src dst ttype sev] ∧
    (∀ (now2 : ℚ) (sess : Bool) (mlr : Option (ℕ × ℚ)) (fid2 : String),
      process_candidate ⟨some key, some ttype, sev⟩ src dst now2 sess mlr fid2
          (process_candidate ⟨some key, some ttype, sev⟩ src dst tE false none fid1
            (cleanup_threats tE st)).st
        = ⟨(process_candidate ⟨some key, some ttype, sev⟩ src dst tE false none fid1
            (cleanup_threats tE st)).st, none, false⟩) := by
  have heb : dget (cleanup_threats tE st).reported_threats key = none := by
    unfold cleanup_threats
    exact dget_cleanup_evict tE st.reported_threats key hold
  have hb2 : dget (cleanup_threats tE st).detection_attempts key = none := by
    unfold cleanup_threats
    exact dget_filter_none _ st.detection_attempts key hatt
  have e : process_candidate ⟨some key, some ttype, sev⟩ src dst tE false none fid1
      (cleanup_threats tE st)
      = ⟨report_threat (create_threat fid1 src dst ttype sev) key tE (cleanup_threats tE st),
          some (create_threat fid1 src dst ttype sev), false⟩ := by
    simp [process_candidate, heb, hb2]
  refine ⟨?_, heb, ?_, ?_, ?_⟩
  · intro now sess mlr fid
    simp [process_candidate, hrep]
  · rw [e]
  · rw [e]
    simp [report_threat]
  · intro now2 sess mlr fid2
    rw [e]
    simp [process_candidate, report_threat, dget_dput_self]

/-- C6 witness: the theorem applied at the key "k" reported at time 0, a
cleanup at time 300, and a suppressed identical candidate at time 1. -/
theorem C6_witness :
    ((dget [("k", (0 : ℚ))] "k").isSome = true) ∧
    dget (cleanup_threats 300 (MonState.mk [("k", 0)] [] [])).reported_threats "k" = none ∧
    (process_candidate ⟨some "k", some "DDoS", "high"⟩ "s" "d" 300 false none "t1"
        (cleanup_threats 300 (MonState.mk [("k", 0)] [] []))).created
      = some (create_threat "t1" "s" "d" "DDoS" "high") ∧
    process_candidate ⟨some "k", some "DDoS", "high"⟩ "s" "d" 1 true (some (1, 1)) "t9"
        (MonState.mk [("k", 0)] [] [])
      = ⟨MonState.mk [("k", 0)] [] [], none, false⟩ := by
  have h := C6_spec "k" "DDoS" "high" "s" "d" "t1" (MonState.mk [("k", 0)] [] []) 300
    (by decide)
    (by
      intro v hv
      simp only [List.mem_singleton, Prod.mk.injEq] at hv
      rw [hv.2]
      norm_num)
    rfl
  exact ⟨by decide, h.2.1, h.2.2.1, h.1 1 true (some (1, 1)) "t9"⟩

/-! ### Claim C7: rejected candidates and the 30 s cool-down -/

/-- C7: a candidate that reaches the remote classifier and is rejected
(prediction ≠ 1 or probability below the 0.01 threshold) creates no Threat
record and leaves the reported set and threat list unchanged, while a
Detection Attempt is recorded under the candidate's key at the current
time; every identical candidate arriving within the next 30 seconds is then
dropped without consulting the remote classifier again. -/
theorem C7_spec (key ttype sev src dst fid : String) (st : MonState) (now : ℚ)
    (pred : ℕ) (prob : ℚ)
    (hrep : dget st.reported_threats key = none)
    (hatt : dget st.detection_attempts key = none)
    (hrej : pred ≠ 1 ∨ prob < 1 / 100) :
    (process_candidate ⟨some key, some ttype, sev⟩ src dst now true (some (pred, prob))
        fid st).created = none ∧
    (process_candidate ⟨some key, some ttype, sev⟩ src dst now true (some (pred, prob))
        fid st).st.threats = st.threats ∧
    (process_candidate ⟨some key, some ttype, sev⟩ src dst now true (some (pred, prob))
        fid st).st.reported_threats = st.reported_threats ∧
    (process_candidate ⟨some key, some ttype, sev⟩ src dst now true (some (pred, prob))
        fid st).mlCalled = true ∧
    dget (process_candidate ⟨some key, some ttype, sev⟩ src dst now true (some (pred, prob))
        fid st).st.detection_attempts key = some now ∧
    (∀ (now2 : ℚ) (mlr2 : Option (ℕ × ℚ)) (fid2 : String), now2 - now < 30 →
      process_candidate ⟨some key, some ttype, sev⟩ src dst now2 true mlr2 fid2
          (process_candidate ⟨some key, some ttype, sev⟩ src dst now true
            (some (pred, prob)) fid st).st
        = ⟨(process_candidate ⟨some key, some ttype, sev⟩ src dst now true
            (some (pred, prob)) fid st).st, none, false⟩) := by
  have himp : pred = 1 → prob < (100 : ℚ)⁻¹ := by
    intro hp
    rcases hrej with h | h
    · exact absurd hp h
    · rw [one_div] at h
      exact h
  have e : process_candidate ⟨some key, some ttype, sev⟩ src dst now true (some (pred, prob))
      fid st
      = ⟨⟨st.reported_threats, dput st.detection_attempts key now, st.threats⟩,
          none, true⟩ := by
    simp only [process_candidate, hrep, hatt]
    simp
    exact himp
  refine ⟨by rw [e], by rw [e], by rw [e], by rw [e], ?_, ?_⟩
  · rw [e]
    exact dget_dput_self st.detection_attempts key now
  · intro now2 mlr2 fid2 h30
    rw [e]
    simp [process_candidate, hrep, dget_dput_self, h30]

/-- C7 witness: the theorem applied to a rejected borderline candidate
(prediction 0) at time 100, plus its suppressed recurrence at time 120. -/
theorem C7_witness :
    dget (MonState.mk [] [] []).reported_threats "k" = none ∧
    ((0 : ℕ) ≠ 1 ∨ (9 / 10 : ℚ) < 1 / 100) ∧
    (process_candidate ⟨some "k", some "Port Scan", "medium"⟩ "s" "d" 100 true
        (some (0, 9 / 10)) "f" (MonState.mk [] [] [])).created = none ∧
    dget (process_candidate ⟨some "k", some "Port Scan", "medium"⟩ "s" "d" 100 true
        (some (0, 9 / 10)) "f" (MonState.mk [] [] [])).st.detection_attempts "k"
      = some 100 ∧
    process_candidate ⟨some "k", some "Port Scan", "medium"⟩ "s" "d" 120 true
        (some (1, 1)) "f2"
        (process_candidate ⟨some "k", some "Port Scan", "medium"⟩ "s" "d" 100 true
          (some (0, 9 / 10)) "f" (MonState.mk [] [] [])).st
      = ⟨(process_candidate ⟨some "k", some "Port Scan", "medium"⟩ "s" "d" 100 true
          (some (0, 9 / 10)) "f" (MonState.mk [] [] [])).st, none, false⟩ := by
  have h := C7_spec "k" "Port Scan" "medium" "s" "d" "f" (MonState.mk [] [] []) 100 0 (9 / 10)
    rfl rfl (Or.inl (by norm_num))
  exact ⟨rfl, Or.inl (by norm_num), h.1, h.2.2.2.2.1,
    h.2.2.2.2.2 120 (some (1, 1)) "f2" (by norm_num)⟩

end IDS
